import Mathlib

/-!
Verification of the offline persistence and asset-caching layer of the
navy-visitorbook repository.

Part I embeds the service worker (the Offline Cache Gateway): the current,
network-first worker found in the repository (CACHE_NAME "visitorbook-v6",
file src/unnamed/part_000).  The repository also still carries the superseded
cache-first worker (src/sw.js, CACHE_NAME "visitorbook-v4"); the specification
describes the network-first design as the current one, explicitly calling the
cache-first version "an earlier design".

Part II embeds the IndexedDB storage module (src/js/storage.js).

Part III models the base64 data-URL codec that the platform primitives
FileReader.readAsDataURL and fetch(dataURL) implement, which the conversion
helpers blobToDataURL and dataURLToBlob delegate to.
-/

namespace VisitorBook

/-! ### Part I: the service worker (src/unnamed/part_000) -/

/-- Model of a request as seen by the fetch listener: its method, absolute
URL, and mode (the mode is "navigate" for top-level page navigations). -/
structure Request where
  method : String
  url : String
  mode : String
deriving DecidableEq, Repr

/-- Model of a response: status code, status text, and an opaque body.
Cloning a response (response.clone in the source) yields an equal value, so
clones are not distinguished in the model. -/
structure Response where
  status : Nat
  statusText : String
  body : String
deriving DecidableEq, Repr

/-- Cache generation constant of the current worker (src/unnamed/part_000
line 1). -/
def CACHE_NAME : String := "visitorbook-v6"

/-- Shell-asset manifest (src/unnamed/part_000 lines 2-12). -/
def ASSETS_TO_CACHE : List String :=
  ["/", "/index.html", "/css/tailwind.css", "/css/app.css", "/js/app.js",
   "/js/canvas.js", "/js/camera.js", "/js/storage.js", "/manifest.json"]

/-- A cache generation: request/response pairs keyed by request URL, which is
how the Cache API keys entries for same-method GET requests. -/
abbrev Cache : Type := List (String × Response)

/-- Model of cache.put: stores the response under the request URL, replacing
any prior cached value for that exact request. -/
def cachePut (c : Cache) (url : String) (r : Response) : Cache :=
  (url, r) :: List.filter (fun p => p.1 ≠ url) c

/-- Model of cache.match: the cached response for the request URL, if any. -/
def cacheMatch (c : Cache) (url : String) : Option Response :=
  Option.map Prod.snd (List.find? (fun p => p.1 = url) c)

/-- Translation of isNavigationRequest (src/unnamed/part_000 lines 14-16):
request.mode === "navigate". -/
def isNavigationRequest (request : Request) : Bool :=
  request.mode = "navigate"

/-- Outcome of the network fetch: a resolved response, or a rejected fetch
(which the source handles in its catch branch). -/
abbrev NetworkResult : Type := Except Unit Response

/-- Response built by the catch branch when nothing is cached and the request
is not a navigation (src/unnamed/part_000 line 82): new Response with
status 504 and statusText "Gateway Timeout". -/
def gatewayTimeoutResponse : Response :=
  { status := 504, statusText := "Gateway Timeout", body := "" }

/-- Translation of the promise chain passed to event.respondWith by the fetch
listener (src/unnamed/part_000 lines 55-84).  The first component is what the
caller receives: some r when the chain resolves with a response, none when it
resolves with undefined (caches.match miss on the shell fallback path).  The
second component is the cache generation after the chain ran; the source
issues cache.put without awaiting it, and the model records its effect. -/
def respondWithChain (net : NetworkResult) (c : Cache) (request : Request) :
    Option Response × Cache :=
  match net with
  | Except.ok response =>
      if response.status ≠ 200 then (some response, c)
      else (some response, cachePut c request.url response)
  | Except.error _ =>
      match cacheMatch c request.url with
      | some cachedResponse => (some cachedResponse, c)
      | none =>
          if isNavigationRequest request then (cacheMatch c "/index.html", c)
          else (some gatewayTimeoutResponse, c)

/-- Character-list version of the JavaScript String.prototype.startsWith
test used by the listener guard. -/
def charsStartWith : List Char → List Char → Bool
  | _, [] => true
  | [], _ :: _ => false
  | u :: us, o :: os => if u = o then charsStartWith us os else false

/-- Model of event.request.url.startsWith(self.location.origin): the URL
string starts with the origin string. -/
def strStartsWith (s pre : String) : Bool :=
  charsStartWith s.toList pre.toList

/-- Translation of the full fetch listener (src/unnamed/part_000 lines
46-86): non-GET requests and cross-origin requests are not intercepted
(result none); the rest go through respondWithChain. -/
def fetchListener (origin : String) (net : NetworkResult) (c : Cache)
    (request : Request) : Option (Option Response × Cache) :=
  if request.method ≠ "GET" then none
  else if ¬ strStartsWith request.url origin then none
  else some (respondWithChain net c request)

/-- Names the activate handler deletes (src/unnamed/part_000 lines 36-38):
every cache name different from CACHE_NAME. -/
def cachesToDelete (cacheNames : List String) : List String :=
  List.filter (fun name => name ≠ CACHE_NAME) cacheNames

/-- Cache names remaining after the activate handler ran: the stored names
minus every deleted one (src/unnamed/part_000 lines 31-43). -/
def activateRemaining (cacheNames : List String) : List String :=
  List.filter (fun name => ¬ name ∈ cachesToDelete cacheNames) cacheNames

/-! ### Part II: the IndexedDB storage module (src/js/storage.js) -/

/-- Binary image payload: a MIME type and a byte sequence (each byte below
256).  Blobs cross the storage boundary unmodified. -/
structure Blob where
  mimeType : List Char
  bytes : List Nat
deriving DecidableEq, Repr

/-- Shape of the object a caller passes to saveEntry.  Optional fields model
absent or null properties of the JavaScript input object; a caller may also
supply a timestamp property, which saveEntry never reads. -/
structure EntryInput where
  photo : Option Blob
  signature : Option Blob
  name : Option String
  designation : Option String
  timestamp : Option String
deriving DecidableEq, Repr

/-- An Entry record as persisted in the entries object store: the entryData
object built by saveEntry (src/js/storage.js lines 73-79) plus the id the
autoIncrement key generator assigned. -/
structure EntryRecord where
  id : Nat
  photo : Option Blob
  signature : Option Blob
  name : String
  designation : String
  timestamp : String
deriving DecidableEq, Repr

/-- A Visitor record as persisted in the visitors object store
(src/js/storage.js lines 236-241). -/
structure VisitorRecord where
  id : Nat
  photo : Option Blob
  name : String
  designation : String
  createdAt : String
deriving DecidableEq, Repr

/-- State of the VisitorBookDB database: the two object stores in primary-key
(insertion) order, and the next key each autoIncrement key generator will
hand out.  IndexedDB key generators only ever count up, even across
deletions. -/
structure DB where
  entries : List EntryRecord
  nextEntryId : Nat
  visitors : List VisitorRecord
  nextVisitorId : Nat
deriving DecidableEq, Repr

/-- Database with both stores empty, as created on first open. -/
def emptyDB : DB :=
  { entries := [], nextEntryId := 1, visitors := [], nextVisitorId := 1 }

/-- Semantics of the JavaScript expression v || "" on an optional string: an
absent, null, or empty (falsy) value yields the default empty string. -/
def jsOrEmpty (v : Option String) : String :=
  match v with
  | none => ""
  | some s => if s = "" then "" else s

/-- Translation of saveEntry (src/js/storage.js lines 66-93).  The entryData
record copies photo and signature verbatim, defaults name and designation via
the || "" idiom, and stamps timestamp with the value of new
Date().toISOString() at insertion time, here passed as the parameter now.
store.add assigns the next key and the promise resolves with that key. -/
def saveEntry (db : DB) (entry : EntryInput) (now : String) : Nat × DB :=
  let entryData : EntryRecord :=
    { id := db.nextEntryId
      photo := entry.photo
      signature := entry.signature
      name := jsOrEmpty entry.name
      designation := jsOrEmpty entry.designation
      timestamp := now }
  (db.nextEntryId,
   { db with entries := db.entries ++ [entryData],
             nextEntryId := db.nextEntryId + 1 })

/-- Ordering of the timestamp index: IndexedDB index entries are sorted by
index key (the timestamp string) and, among equal keys, by primary key. -/
def timestampIndexLe (a b : EntryRecord) : Prop :=
  a.timestamp < b.timestamp ∨ (a.timestamp = b.timestamp ∧ a.id ≤ b.id)

instance : DecidableRel timestampIndexLe := fun a b => by
  unfold timestampIndexLe; infer_instance

instance : IsTotal EntryRecord timestampIndexLe where
  total a b := by
    unfold timestampIndexLe
    rcases lt_trichotomy a.timestamp b.timestamp with h | h | h
    · exact Or.inl (Or.inl h)
    · rcases Nat.le_total a.id b.id with h2 | h2
      · exact Or.inl (Or.inr ⟨h, h2⟩)
      · exact Or.inr (Or.inr ⟨h.symm, h2⟩)
    · exact Or.inr (Or.inl h)

instance : IsTrans EntryRecord timestampIndexLe where
  trans a b c hab hbc := by
    unfold timestampIndexLe at *
    rcases hab with h1 | ⟨h1, h1i⟩
    · rcases hbc with h2 | ⟨h2, _⟩
      · exact Or.inl (h1.trans h2)
      · exact Or.inl (h2 ▸ h1)
    · rcases hbc with h2 | ⟨h2, h2i⟩
      · exact Or.inl (h1 ▸ h2)
      · exact Or.inr ⟨h1.trans h2, h1i.trans h2i⟩

/-- Contents of the timestamp index over the entries store: all records in
index order (timestamp ascending, ties by primary key). -/
def timestampIndex (entries : List EntryRecord) : List EntryRecord :=
  List.insertionSort timestampIndexLe entries

/-- Translation of getAllEntries (src/js/storage.js lines 99-125): walk the
timestamp index with a cursor opened in direction "prev" (descending),
collecting every record. -/
def getAllEntries (db : DB) : List EntryRecord :=
  (timestampIndex db.entries).reverse

/-- Translation of getEntry (src/js/storage.js lines 132-149): store.get on
the id; a missing key succeeds with undefined (modelled none), never an
error. -/
def getEntry (db : DB) (id : Nat) : Option EntryRecord :=
  List.find? (fun e => e.id = id) db.entries

/-- Translation of deleteEntry (src/js/storage.js lines 156-174): store.delete
removes the record with the key when present and succeeds either way. -/
def deleteEntry (db : DB) (id : Nat) : DB :=
  { db with entries := List.filter (fun e => ¬ e.id = id) db.entries }

/-- Translation of getEntryCount (src/js/storage.js lines 180-196):
store.count on the entries store. -/
def getEntryCount (db : DB) : Nat :=
  db.entries.length

/-- Translation of deleteAllEntries (src/js/storage.js lines 202-220): a
transaction scoped to the entries store only, then store.clear. -/
def deleteAllEntries (db : DB) : DB :=
  { db with entries := [] }

/-- Translation of addVisitor (src/js/storage.js lines 229-255). -/
def addVisitor (db : DB) (visitor : VisitorRecord) (now : String) : Nat × DB :=
  let visitorData : VisitorRecord :=
    { id := db.nextVisitorId
      photo := visitor.photo
      name := visitor.name
      designation := visitor.designation
      createdAt := now }
  (db.nextVisitorId,
   { db with visitors := db.visitors ++ [visitorData],
             nextVisitorId := db.nextVisitorId + 1 })

/-- Replay of a sequence of saveEntry calls from a starting state: each call
supplies the input object and the clock reading at its insertion instant. -/
def replayEntries (db : DB) : List (EntryInput × String) → DB
  | [] => db
  | (entry, now) :: rest => replayEntries (saveEntry db entry now).2 rest

/-! ### Part II b: connection lifecycle of initDB (src/js/storage.js 10-57)

The module keeps one variable, let db = null.  Each initDB call runs a
promise executor synchronously: if db is set it resolves with db at once;
otherwise it calls indexedDB.open, and only later, when that open request
fires onsuccess, does the handler assign db = request.result and resolve with
it.  Each indexedDB.open invocation creates a fresh connection object; the
model numbers connections by the order the open calls were issued, so handles
from distinct opens are distinct values. -/

/-- Observable state of the module: the cached db variable (a connection
number, or none for null) and how many times indexedDB.open has been
invoked. -/
structure DBConnState where
  db : Option Nat
  openCount : Nat
deriving DecidableEq, Repr

/-- Fresh module state: db is null and the engine has never been opened. -/
def initialConnState : DBConnState := { db := none, openCount := 0 }

/-- Synchronous part of one initDB call (the promise executor,
src/js/storage.js lines 16-22): when db is set the call resolves immediately
with it (first component some handle); when db is null the call invokes
indexedDB.open and stays pending (first component none), the new open request
being numbered by the prior openCount. -/
def initDB_executor (s : DBConnState) : Option Nat × DBConnState :=
  match s.db with
  | some d => (some d, s)
  | none => (none, { s with openCount := s.openCount + 1 })

/-- Completion of an open request (the onsuccess handler, src/js/storage.js
lines 29-33): db is assigned the request result and the pending call resolves
with it.  The parameter result is the connection number of the request that
completed. -/
def initDB_onsuccess (s : DBConnState) (result : Nat) : Nat × DBConnState :=
  (result, { s with db := some result })

/-! ### Part III: the data-URL codec behind blobToDataURL and dataURLToBlob

blobToDataURL (src/js/storage.js lines 336-343) hands the blob to
FileReader.readAsDataURL, whose platform-specified output is the string
"data:" ++ mime ++ ";base64," ++ base64(bytes).  dataURLToBlob (lines
350-353) hands the data URL to fetch, whose platform-specified data-URL
handling strips everything up to and including the first comma and
base64-decodes the remainder into the blob bytes.  The codec below models
that platform behavior (RFC 4648 base64 with padding); the repository
functions are the compositions at the bottom. -/

/-- Character for a six-bit group, by the RFC 4648 base64 alphabet. -/
def sextetChar (n : Nat) : Char :=
  if n < 26 then Char.ofNat (65 + n)
  else if n < 52 then Char.ofNat (97 + (n - 26))
  else if n < 62 then Char.ofNat (48 + (n - 52))
  else if n = 62 then Char.ofNat 43
  else Char.ofNat 47

/-- Six-bit group encoded by a base64 alphabet character. -/
def charSextet (c : Char) : Nat :=
  if 65 ≤ c.toNat ∧ c.toNat ≤ 90 then c.toNat - 65
  else if 97 ≤ c.toNat ∧ c.toNat ≤ 122 then c.toNat - 97 + 26
  else if 48 ≤ c.toNat ∧ c.toNat ≤ 57 then c.toNat - 48 + 52
  else if c.toNat = 43 then 62
  else 63

/-- Base64 encoding of a byte sequence, three bytes to four characters, with
"=" padding on a final partial group. -/
def b64Encode : List Nat → List Char
  | [] => []
  | [a] =>
      [sextetChar (a / 4), sextetChar (a % 4 * 16), Char.ofNat 61, Char.ofNat 61]
  | [a, b] =>
      [sextetChar (a / 4), sextetChar (a % 4 * 16 + b / 16),
       sextetChar (b % 16 * 4), Char.ofNat 61]
  | a :: b :: c :: rest =>
      sextetChar (a / 4) :: sextetChar (a % 4 * 16 + b / 16) ::
      sextetChar (b % 16 * 4 + c / 64) :: sextetChar (c % 64) ::
      b64Encode rest

/-- Base64 decoding: each four-character group yields three bytes, or fewer
when "=" padding ends the input. -/
def b64Decode : List Char → List Nat
  | c0 :: c1 :: c2 :: c3 :: rest =>
      if c2.toNat = 61 then
        [charSextet c0 * 4 + charSextet c1 / 16]
      else if c3.toNat = 61 then
        [charSextet c0 * 4 + charSextet c1 / 16,
         charSextet c1 % 16 * 16 + charSextet c2 / 4]
      else
        (charSextet c0 * 4 + charSextet c1 / 16) ::
        (charSextet c1 % 16 * 16 + charSextet c2 / 4) ::
        (charSextet c2 % 4 * 64 + charSextet c3) ::
        b64Decode rest
  | _ => []

/-- Translation of blobToDataURL (src/js/storage.js lines 336-343) composed
with the platform FileReader.readAsDataURL output format, as a character
sequence. -/
def blobToDataURL (blob : Blob) : List Char :=
  "data:".toList ++ blob.mimeType ++ ";base64,".toList ++ b64Encode blob.bytes

/-- Translation of dataURLToBlob (src/js/storage.js lines 350-353) composed
with the platform data-URL parsing of fetch: drop everything up to and
including the first comma, base64-decode the payload.  The MIME type read
back from the header is kept abstract; the claim under proof concerns the
bytes. -/
def dataURLToBlob (dataURL : List Char) (mime : List Char) : Blob :=
  { mimeType := mime
    bytes := b64Decode (List.drop 1 (List.dropWhile (fun c => ¬ c = ',') dataURL)) }

/-! ### Theorems -/

/-- Helper: a duplicate-free list whose members are all equal to one value
has at most one element. -/
theorem length_le_one_of_nodup_of_all_eq {α : Type} {l : List α} {a : α}
    (hn : l.Nodup) (h : ∀ x ∈ l, x = a) : l.length ≤ 1 := by
  match l, hn with
  | [], _ => simp
  | [x], _ => simp
  | x :: y :: rest, hn =>
      have hx : x = a := h x (by simp)
      have hy : y = a := h y (by simp)
      have hne : x ≠ y := by
        have hc := List.nodup_cons.mp hn
        intro e
        exact hc.1 (e ▸ List.mem_cons_self y rest)
      exact absurd (hx.trans hy.symm) hne

/-- C1: for every intercepted same-origin GET request whose network fetch
resolves with a status-200 response, the fetch listener returns that response
to the caller and stores a copy into the current cache generation under the
request URL, replacing any prior cached value for that exact request; and,
since the network branch of the chain never reads the cache, the response
handed to the caller is the same for every cache state. -/
theorem gateway_network_first_caches_success
    (origin : String) (request : Request) (c : Cache) (r : Response)
    (hm : request.method = "GET") (ho : strStartsWith request.url origin = true)
    (hs : r.status = 200) :
    fetchListener origin (Except.ok r) c request
      = some (some r, cachePut c request.url r) ∧
    cacheMatch (cachePut c request.url r) request.url = some r ∧
    ∀ c2 : Cache, (respondWithChain (Except.ok r) c2 request).1 = some r := by
  refine ⟨?_, ?_, ?_⟩
  · simp [fetchListener, hm, ho, respondWithChain, hs]
  · simp [cacheMatch, cachePut]
  · intro c2
    simp [respondWithChain, hs]

/-- Witness for C1 at a concrete request, cache, and response. -/
theorem gateway_network_first_caches_success_witness :
    fetchListener "https://kiosk.local"
        (Except.ok { status := 200, statusText := "OK", body := "app" })
        [] { method := "GET", url := "https://kiosk.local/js/app.js", mode := "no-cors" }
      = some (some { status := 200, statusText := "OK", body := "app" },
              cachePut [] "https://kiosk.local/js/app.js"
                { status := 200, statusText := "OK", body := "app" }) ∧
    cacheMatch
        (cachePut [] "https://kiosk.local/js/app.js"
          { status := 200, statusText := "OK", body := "app" })
        "https://kiosk.local/js/app.js"
      = some { status := 200, statusText := "OK", body := "app" } :=
  ⟨(gateway_network_first_caches_success "https://kiosk.local"
      { method := "GET", url := "https://kiosk.local/js/app.js", mode := "no-cors" }
      [] { status := 200, statusText := "OK", body := "app" }
      rfl (by decide) rfl).1,
   (gateway_network_first_caches_success "https://kiosk.local"
      { method := "GET", url := "https://kiosk.local/js/app.js", mode := "no-cors" }
      [] { status := 200, statusText := "OK", body := "app" }
      rfl (by decide) rfl).2.1⟩

/-- C3: for every intercepted same-origin GET whose network fetch rejects,
the listener resolves with the cached response for that exact request when
one exists; otherwise, for a top-level page navigation it resolves with the
cached shell document, and for a non-navigation it resolves with the explicit
504 Gateway Timeout response; in every case the chain resolves with a
response object rather than rejecting.  The shell document is cached by the
install step, whose manifest includes "/index.html". -/
theorem gateway_failure_fallback_chain
    (origin : String) (request : Request) (c : Cache) (shell : Response)
    (hm : request.method = "GET") (ho : strStartsWith request.url origin = true)
    (hshell : cacheMatch c "/index.html" = some shell) :
    (∀ cached, cacheMatch c request.url = some cached →
      fetchListener origin (Except.error ()) c request = some (some cached, c)) ∧
    (cacheMatch c request.url = none → isNavigationRequest request = true →
      fetchListener origin (Except.error ()) c request = some (some shell, c)) ∧
    (cacheMatch c request.url = none → isNavigationRequest request = false →
      fetchListener origin (Except.error ()) c request
        = some (some gatewayTimeoutResponse, c)) ∧
    (∃ resp, (respondWithChain (Except.error ()) c request).1 = some resp) := by
  have hfl : fetchListener origin (Except.error ()) c request
      = some (respondWithChain (Except.error ()) c request) := by
    simp [fetchListener, hm, ho]
  refine ⟨?_, ?_, ?_, ?_⟩
  · intro cached hc
    rw [hfl]
    simp [respondWithChain, hc]
  · intro hc hnav
    rw [hfl]
    simp [respondWithChain, hc, hnav, hshell]
  · intro hc hnav
    rw [hfl]
    simp [respondWithChain, hc, hnav]
  · rcases hcm : cacheMatch c request.url with _ | cached
    · rcases hnav : isNavigationRequest request with _ | _
      · exact ⟨gatewayTimeoutResponse, by simp [respondWithChain, hcm, hnav]⟩
      · exact ⟨shell, by simp [respondWithChain, hcm, hnav, hshell]⟩
    · exact ⟨cached, by simp [respondWithChain, hcm]⟩

/-- Witness for C3: a failed navigation request with an empty match against a
cache holding only the shell document falls back to the shell document. -/
theorem gateway_failure_fallback_chain_witness :
    fetchListener "https://kiosk.local" (Except.error ())
        [("/index.html", { status := 200, statusText := "OK", body := "shell" })]
        { method := "GET", url := "https://kiosk.local/gallery", mode := "navigate" }
      = some (some { status := 200, statusText := "OK", body := "shell" },
              [("/index.html", { status := 200, statusText := "OK", body := "shell" })]) :=
  (gateway_failure_fallback_chain "https://kiosk.local"
      { method := "GET", url := "https://kiosk.local/gallery", mode := "navigate" }
      [("/index.html", { status := 200, statusText := "OK", body := "shell" })]
      { status := 200, statusText := "OK", body := "shell" }
      rfl (by decide) (by decide)).2.1 (by decide) rfl

/-- C4: after the activate handler ran, every cache generation whose name
differs from CACHE_NAME has been deleted, every remaining name equals
CACHE_NAME, and hence (cache names being unique keys of the cache storage) at
most one generation remains enumerable. -/
theorem activate_deletes_stale_generations (cacheNames : List String) :
    (∀ name ∈ cacheNames, ¬ name = CACHE_NAME →
        ¬ name ∈ activateRemaining cacheNames) ∧
    (∀ name ∈ activateRemaining cacheNames, name = CACHE_NAME) ∧
    (cacheNames.Nodup → (activateRemaining cacheNames).length ≤ 1) := by
  have hdel : ∀ name, name ∈ cachesToDelete cacheNames ↔
      name ∈ cacheNames ∧ ¬ name = CACHE_NAME := by
    intro name
    simp [cachesToDelete, List.mem_filter]
  have hmem : ∀ name, name ∈ activateRemaining cacheNames ↔
      name ∈ cacheNames ∧ ¬ name ∈ cachesToDelete cacheNames := by
    intro name
    simp [activateRemaining, List.mem_filter]
  have hall : ∀ name ∈ activateRemaining cacheNames, name = CACHE_NAME := by
    intro name hmm
    have h2 := (hmem name).mp hmm
    by_contra hne
    exact h2.2 ((hdel name).mpr ⟨h2.1, hne⟩)
  refine ⟨?_, hall, ?_⟩
  · intro name hmm hne hcontra
    have h2 := (hmem name).mp hcontra
    exact h2.2 ((hdel name).mpr ⟨hmm, hne⟩)
  · intro hnodup
    exact length_le_one_of_nodup_of_all_eq (hnodup.filter _) hall

/-- Witness for C4: of the three generations A, B and visitorbook-v6, at most
one survives activation. -/
theorem activate_deletes_stale_generations_witness :
    (activateRemaining ["visitorbook-v4", "visitorbook-v5", "visitorbook-v6"]).length ≤ 1 :=
  (activate_deletes_stale_generations
      ["visitorbook-v4", "visitorbook-v5", "visitorbook-v6"]).2.2 (by decide)

/-- C2: two initDB calls that both run their promise executor before either
open request completes (the schedule of Promise.all on a fresh page) each
invoke indexedDB.open — the engine is opened twice while the claim allows at
most one open — and the two calls resolve with the two distinct connections,
not one shared handle. -/
theorem initDB_concurrent_calls_double_open :
    (initDB_executor initialConnState).1 = none ∧
    (initDB_executor (initDB_executor initialConnState).2).1 = none ∧
    ((initDB_executor (initDB_executor initialConnState).2).2).openCount = 2 ∧
    (initDB_onsuccess
        ((initDB_executor (initDB_executor initialConnState).2).2) 0).1
      ≠ (initDB_onsuccess
          (initDB_onsuccess
            ((initDB_executor (initDB_executor initialConnState).2).2) 0).2 1).1 := by
  decide

/-- C9: deleteAllEntries empties the entries store (the entry count becomes
zero) and leaves the visitors store exactly as it was. -/
theorem deleteAllEntries_preserves_visitors (db : DB) :
    getEntryCount (deleteAllEntries db) = 0 ∧
    (deleteAllEntries db).entries = [] ∧
    (deleteAllEntries db).visitors = db.visitors ∧
    (deleteAllEntries db).visitors.length = db.visitors.length := by
  simp [deleteAllEntries, getEntryCount]

/-- C5: after any sequence of saveEntry calls, getAllEntries returns all
stored Entry records, ordered by timestamp descending (newest first, never
ascending; equal timestamps may resolve either way); the order is the
reverse traversal of the timestamp index. -/
theorem getAllEntries_sorted_descending (calls : List (EntryInput × String)) :
    List.Pairwise (fun a b : EntryRecord => b.timestamp ≤ a.timestamp)
      (getAllEntries (replayEntries emptyDB calls)) ∧
    (getAllEntries (replayEntries emptyDB calls)).Perm
      (replayEntries emptyDB calls).entries := by
  constructor
  · simp only [getAllEntries, timestampIndex]
    rw [List.pairwise_reverse]
    refine List.Pairwise.imp ?_
      (List.sorted_insertionSort timestampIndexLe
        (replayEntries emptyDB calls).entries)
    intro a b hab
    rcases hab with h | ⟨h, _⟩
    · exact le_of_lt h
    · exact le_of_eq h
  · simp only [getAllEntries, timestampIndex]
    exact (List.reverse_perm _).trans (List.perm_insertionSort _ _)

/-- Helper for C6: replaying saveEntry calls preserves the invariant that
every stored id is below the next key, and keeps the stored ids strictly
increasing in insertion order. -/
theorem replayEntries_ids_increasing (calls : List (EntryInput × String)) :
    ∀ db : DB, (∀ e ∈ db.entries, e.id < db.nextEntryId) →
      List.Pairwise (fun i j => i < j)
        (List.map (fun e : EntryRecord => e.id) db.entries) →
      (∀ e ∈ (replayEntries db calls).entries,
          e.id < (replayEntries db calls).nextEntryId) ∧
      List.Pairwise (fun i j => i < j)
        (List.map (fun e : EntryRecord => e.id) (replayEntries db calls).entries) := by
  induction calls with
  | nil =>
      intro db h1 h2
      exact ⟨h1, h2⟩
  | cons head tail ih =>
      intro db h1 h2
      have hent : (saveEntry db head.1 head.2).2.entries
          = db.entries ++
            [{ id := db.nextEntryId, photo := head.1.photo,
               signature := head.1.signature, name := jsOrEmpty head.1.name,
               designation := jsOrEmpty head.1.designation,
               timestamp := head.2 }] := rfl
      have hnext : (saveEntry db head.1 head.2).2.nextEntryId
          = db.nextEntryId + 1 := rfl
      refine ih (saveEntry db head.1 head.2).2 ?_ ?_
      · intro e he
        rw [hent] at he
        rw [hnext]
        rcases List.mem_append.mp he with he | he
        · exact Nat.lt_succ_of_lt (h1 e he)
        · rw [List.mem_singleton.mp he]
          exact Nat.lt_succ_self db.nextEntryId
      · rw [hent, List.map_append, List.pairwise_append]
        refine ⟨h2, List.pairwise_singleton _ _, ?_⟩
        intro i hi j hj
        simp only [List.map_cons, List.map_nil, List.mem_singleton] at hj
        rcases List.mem_map.mp hi with ⟨e, he, rfl⟩
        rw [hj]
        exact h1 e he

/-- C6: saveEntry stamps the record with the clock value at insertion time,
never reads a caller-supplied timestamp (inputs differing only in their
timestamp field produce identical results), resolves with the newly assigned
identifier, and the assigned identifiers are strictly increasing — hence
unique — across any sequence of insertions. -/
theorem saveEntry_assigns_id_and_timestamp :
    (∀ (db : DB) (entry : EntryInput) (now : String),
        (saveEntry db entry now).1 = db.nextEntryId ∧
        (saveEntry db entry now).2.entries
          = db.entries ++
            [{ id := db.nextEntryId, photo := entry.photo,
               signature := entry.signature, name := jsOrEmpty entry.name,
               designation := jsOrEmpty entry.designation, timestamp := now }] ∧
        (saveEntry db entry now).2.nextEntryId = db.nextEntryId + 1 ∧
        ∀ ts1 ts2 : Option String,
          saveEntry db { entry with timestamp := ts1 } now
            = saveEntry db { entry with timestamp := ts2 } now) ∧
    ∀ calls : List (EntryInput × String),
      List.Pairwise (fun i j => i < j)
        (List.map (fun e : EntryRecord => e.id) (replayEntries emptyDB calls).entries) := by
  constructor
  · intro db entry now
    exact ⟨rfl, rfl, rfl, fun ts1 ts2 => rfl⟩
  · intro calls
    exact (replayEntries_ids_increasing calls emptyDB
      (by simp [emptyDB]) (by simp [emptyDB])).2

/-- C7: getEntry resolves with a stored record bearing the id whenever one
exists, and with the explicit absent result none when none does (the
operation is a total function of the state, so a missing id never rejects);
every record it returns is stored and bears the id; getEntry after
deleteEntry of the same id yields none; and deleteEntry is idempotent, so a
second deleteEntry of the same id succeeds and changes nothing. -/
theorem getEntry_deleteEntry_absent_semantics :
    (∀ (db : DB) (id : Nat), (∃ e ∈ db.entries, e.id = id) →
        ∃ e, getEntry db id = some e ∧ e ∈ db.entries ∧ e.id = id) ∧
    (∀ (db : DB) (id : Nat), (∀ e ∈ db.entries, ¬ e.id = id) →
        getEntry db id = none) ∧
    (∀ (db : DB) (id : Nat) (e : EntryRecord), getEntry db id = some e →
        e ∈ db.entries ∧ e.id = id) ∧
    (∀ (db : DB) (id : Nat), getEntry (deleteEntry db id) id = none) ∧
    (∀ (db : DB) (id : Nat), deleteEntry (deleteEntry db id) id = deleteEntry db id) := by
  refine ⟨?_, ?_, ?_, ?_, ?_⟩
  · intro db id h
    rcases h with ⟨e0, he0, hid⟩
    have hsome : (getEntry db id).isSome := by
      rw [getEntry, List.find?_isSome]
      exact ⟨e0, he0, by simp [hid]⟩
    rcases Option.isSome_iff_exists.mp hsome with ⟨e, he⟩
    refine ⟨e, he, List.mem_of_find?_eq_some he, ?_⟩
    have := List.find?_some he
    simpa using this
  · intro db id h
    apply List.find?_eq_none.mpr
    intro e he
    simp only [decide_eq_true_eq]
    exact h e he
  · intro db id e h
    refine ⟨List.mem_of_find?_eq_some h, ?_⟩
    have := List.find?_some h
    simpa using this
  · intro db id
    apply List.find?_eq_none.mpr
    intro e he
    have hmem := List.mem_filter.mp he
    simpa using hmem.2
  · intro db id
    simp [deleteEntry, List.filter_filter]

/-- One-entry database used to exercise the positive lookup of C7. -/
def oneEntryDB : DB :=
  { entries := [{ id := 1, photo := none, signature := none, name := "Jane",
                  designation := "Engineer",
                  timestamp := "2026-10-11T00:00:00.000Z" }]
    nextEntryId := 2
    visitors := []
    nextVisitorId := 1 }

/-- Witness for C7 at concrete states: a lookup of an existing id resolves
with a stored record bearing that id, a lookup of a missing id yields the
absent result, deleting id 1 twice succeeds, and a lookup of the deleted id
yields the absent result. -/
theorem getEntry_deleteEntry_absent_semantics_witness :
    (∃ e, getEntry oneEntryDB 1 = some e ∧ e ∈ oneEntryDB.entries ∧ e.id = 1) ∧
    getEntry emptyDB 7 = none ∧
    getEntry (deleteEntry oneEntryDB 1) 1 = none ∧
    deleteEntry (deleteEntry oneEntryDB 1) 1 = deleteEntry oneEntryDB 1 :=
  ⟨getEntry_deleteEntry_absent_semantics.1 oneEntryDB 1
     ⟨{ id := 1, photo := none, signature := none, name := "Jane",
        designation := "Engineer", timestamp := "2026-10-11T00:00:00.000Z" },
      by simp [oneEntryDB], rfl⟩,
   getEntry_deleteEntry_absent_semantics.2.1 emptyDB 7 (by simp [emptyDB]),
   getEntry_deleteEntry_absent_semantics.2.2.2.1 oneEntryDB 1,
   getEntry_deleteEntry_absent_semantics.2.2.2.2 oneEntryDB 1⟩

/-- C10: every record persisted by saveEntry carries name and designation as
strings, defaulting to the empty string when the input omits them or
supplies the empty (falsy) string; the timestamp is the non-empty clock
string; and photo and signature are stored exactly as supplied with no
presence check, so an input lacking a signature or photo is accepted and
persisted with that field absent. -/
theorem saveEntry_field_defaults (db : DB) (entry : EntryInput) (now : String)
    (hnow : ¬ now = "") :
    ∃ r : EntryRecord,
      (saveEntry db entry now).2.entries = db.entries ++ [r] ∧
      r.photo = entry.photo ∧
      r.signature = entry.signature ∧
      (entry.name = none ∨ entry.name = some "" → r.name = "") ∧
      (∀ s, entry.name = some s → ¬ s = "" → r.name = s) ∧
      (entry.designation = none ∨ entry.designation = some "" →
          r.designation = "") ∧
      (∀ s, entry.designation = some s → ¬ s = "" → r.designation = s) ∧
      ¬ r.timestamp = "" := by
  refine ⟨_, rfl, rfl, rfl, ?_, ?_, ?_, ?_, hnow⟩
  · intro h
    rcases h with h | h <;> simp [jsOrEmpty, h]
  · intro s hs hne
    simp [jsOrEmpty, hs, hne]
  · intro h
    rcases h with h | h <;> simp [jsOrEmpty, h]
  · intro s hs hne
    simp [jsOrEmpty, hs, hne]

/-- Witness for C10: an input with no photo, no signature, no name, no
designation and no timestamp is persisted with empty-string name and
designation, absent photo and signature, and the clock timestamp. -/
theorem saveEntry_field_defaults_witness :
    ∃ r : EntryRecord,
      (saveEntry emptyDB
          { photo := none, signature := none, name := none,
            designation := none, timestamp := none }
          "2026-10-11T00:00:00.000Z").2.entries
        = emptyDB.entries ++ [r] ∧
      r.photo = none ∧
      r.signature = none ∧
      ((none : Option String) = none ∨ (none : Option String) = some "" →
          r.name = "") ∧
      (∀ s, (none : Option String) = some s → ¬ s = "" → r.name = s) ∧
      ((none : Option String) = none ∨ (none : Option String) = some "" →
          r.designation = "") ∧
      (∀ s, (none : Option String) = some s → ¬ s = "" → r.designation = s) ∧
      ¬ r.timestamp = "" :=
  saveEntry_field_defaults emptyDB
    { photo := none, signature := none, name := none, designation := none,
      timestamp := none }
    "2026-10-11T00:00:00.000Z" (by decide)

/-- Helper: decoding inverts encoding on each six-bit group. -/
theorem charSextet_sextetChar : ∀ n < 64, charSextet (sextetChar n) = n := by
  decide

/-- Helper: no alphabet character is the padding character "=". -/
theorem sextetChar_toNat_ne : ∀ n < 64, ¬ (sextetChar n).toNat = 61 := by
  decide

/-- Helper for C8: base64 decoding inverts base64 encoding on every byte
sequence. -/
theorem b64_roundtrip : ∀ bytes : List Nat, (∀ x ∈ bytes, x < 256) →
    b64Decode (b64Encode bytes) = bytes := by
  intro bytes
  induction bytes using b64Encode.induct with
  | case1 =>
      intro _
      rfl
  | case2 a =>
      intro h
      have ha : a < 256 := h a (by simp)
      have h0 : a / 4 < 64 := by omega
      have h1 : a % 4 * 16 < 64 := by omega
      simp only [b64Encode, b64Decode]
      rw [if_pos (by decide)]
      rw [charSextet_sextetChar _ h0, charSextet_sextetChar _ h1]
      simp only [List.cons.injEq, and_true]
      omega
  | case3 a b =>
      intro h
      have ha : a < 256 := h a (by simp)
      have hb : b < 256 := h b (by simp)
      have h0 : a / 4 < 64 := by omega
      have h1 : a % 4 * 16 + b / 16 < 64 := by omega
      have h2 : b % 16 * 4 < 64 := by omega
      simp only [b64Encode, b64Decode]
      rw [if_neg (sextetChar_toNat_ne _ h2)]
      rw [if_pos (by decide)]
      rw [charSextet_sextetChar _ h0, charSextet_sextetChar _ h1,
          charSextet_sextetChar _ h2]
      simp only [List.cons.injEq, and_true]
      constructor
      · omega
      · omega
  | case4 a b c rest ih =>
      intro h
      have ha : a < 256 := h a (by simp)
      have hb : b < 256 := h b (by simp)
      have hc : c < 256 := h c (by simp)
      have h0 : a / 4 < 64 := by omega
      have h1 : a % 4 * 16 + b / 16 < 64 := by omega
      have h2 : b % 16 * 4 + c / 64 < 64 := by omega
      have h3 : c % 64 < 64 := by omega
      have hrest : ∀ x ∈ rest, x < 256 := by
        intro x hx
        exact h x (by simp [hx])
      simp only [b64Encode, b64Decode]
      rw [if_neg (sextetChar_toNat_ne _ h2)]
      rw [if_neg (sextetChar_toNat_ne _ h3)]
      rw [charSextet_sextetChar _ h0, charSextet_sextetChar _ h1,
          charSextet_sextetChar _ h2, charSextet_sextetChar _ h3]
      rw [ih hrest]
      simp only [List.cons.injEq, and_true]
      refine ⟨by omega, by omega, by omega⟩

/-- Helper for C8: the data-URL parser skips exactly the comma-free header
and the first comma. -/
theorem dropWhile_through_comma (h t : List Char) (hh : ¬ ',' ∈ h) :
    List.dropWhile (fun c => ¬ c = ',') (h ++ ',' :: t) = ',' :: t := by
  induction h with
  | nil => simp [List.dropWhile]
  | cons c h2 ih =>
      have hc : ¬ c = ',' := fun e => hh (by simp [e])
      have hh2 : ¬ ',' ∈ h2 := fun m => hh (by simp [m])
      rw [List.cons_append, List.dropWhile_cons, if_pos (by simp [hc]), ih hh2]

/-- C8: converting a blob to a data URL and the data URL back to a blob
reproduces the blob bytes exactly, for every binary payload (bytes below
256) whose MIME type contains no comma. -/
theorem dataURL_roundtrip_bytes (blob : Blob) (mime2 : List Char)
    (hbytes : ∀ x ∈ blob.bytes, x < 256)
    (hmime : ¬ ',' ∈ blob.mimeType) :
    (dataURLToBlob (blobToDataURL blob) mime2).bytes = blob.bytes := by
  have h1 : ";base64,".toList = ";base64".toList ++ [','] := by decide
  have hsplit : blobToDataURL blob
      = ("data:".toList ++ blob.mimeType ++ ";base64".toList)
        ++ ',' :: b64Encode blob.bytes := by
    rw [blobToDataURL, h1]
    simp [List.append_assoc]
  have hnc : ¬ ',' ∈ ("data:".toList ++ blob.mimeType ++ ";base64".toList) := by
    intro hmem
    rcases List.mem_append.mp hmem with hmem | hmem
    · rcases List.mem_append.mp hmem with hmem | hmem
      · exact absurd hmem (by decide)
      · exact hmime hmem
    · exact absurd hmem (by decide)
  show b64Decode
      (List.drop 1 (List.dropWhile (fun c => ¬ c = ',') (blobToDataURL blob)))
    = blob.bytes
  rw [hsplit, dropWhile_through_comma _ _ hnc]
  simp only [List.drop_succ_cons, List.drop_zero]
  exact b64_roundtrip blob.bytes hbytes

/-- Witness for C8: the first bytes of a PNG survive the round trip. -/
theorem dataURL_roundtrip_bytes_witness :
    (dataURLToBlob
        (blobToDataURL
          { mimeType := "image/png".toList, bytes := [137, 80, 78, 71, 13, 10] })
        "image/png".toList).bytes
      = [137, 80, 78, 71, 13, 10] :=
  dataURL_roundtrip_bytes
    { mimeType := "image/png".toList, bytes := [137, 80, 78, 71, 13, 10] }
    "image/png".toList (by decide) (by decide)

end VisitorBook
